import Mathlib

/-!
Verification of the IndiStream mobile client core against its design
specification.

The development shallowly embeds the two stateful cores of the client:

* the upload pipeline coordinator (`handleUpload` and the `videoAPI`
  helpers in `src/app/(tabs)/index.tsx`), modelled as a pure function
  from an initial screen state and an oracle of remote-call outcomes to
  the trace of observable events the handler performs, and

* the playback controller (`src/app/video-player.tsx`): seek-by-tap,
  rate cycling, the controls-auto-hide timer, progress derivation and
  time formatting.

Remote calls are replaced by an oracle record holding each call's
outcome; JavaScript truthiness of numbers and strings is modelled by
explicit zero/emptiness tests; machine numbers are `Nat`/`ℚ`.
-/

deriving instance DecidableEq for Except

/-- JavaScript's `String.prototype.trim`: strip leading and trailing
whitespace.  Modelled over the underlying character list so that it
evaluates by kernel reduction. -/
def jsTrim (s : String) : String :=
  String.mk ((s.data.dropWhile Char.isWhitespace).reverse.dropWhile Char.isWhitespace).reverse

namespace IndiStream

/-! ### Upload pipeline: data model (src/app/(tabs)/index.tsx) -/

/-- Response of `POST /videos/upload-url` (interface `UploadResponse`). -/
structure UploadResponse where
  filename : String
  url : String
  video_id : String
deriving DecidableEq

/-- The screen state touched by `handleUpload`: the selected local file
URI (`selectedVideo`, `none` when nothing picked), the entered title,
the `uploading` flag, the numeric `uploadProgress`, and the modal
visibility flag. -/
structure UploadState where
  selectedVideo : Option String
  uploadTitle : String
  uploading : Bool
  uploadProgress : Nat
  showUploadModal : Bool
deriving DecidableEq

/-- Outcomes of the three remote calls made by one `handleUpload`
attempt: the result of `videoAPI.getUploadURL`, the HTTP status code
reported by `FileSystem.uploadAsync` inside `videoAPI.uploadVideoFile`,
and the result of `videoAPI.createVideoMetadata`. -/
structure UploadOracle where
  getUploadURL : Except String UploadResponse
  uploadStatus : Nat
  createMetadata : Except String Unit
deriving DecidableEq

/-- Observable events performed by `handleUpload`, in program order:
state setters, the three remote calls, alerts, and the final
`loadVideos()` refresh request. -/
inductive UploadEvent where
  | setUploading (b : Bool)
  | setProgress (p : Nat)
  | callGetUploadURL
  | callUploadFile (url fileUri : String)
  | callCreateMetadata (title filename : String)
  | alertShown (title message : String)
  | setTitle (t : String)
  | setSelectedVideo (v : Option String)
  | setShowModal (b : Bool)
  | refreshVideos
deriving DecidableEq

/-- `videoAPI.uploadVideoFile`: after the PUT transfer it throws unless
the reported status is exactly 200. -/
def uploadVideoFile (status : Nat) : Except String Unit :=
  if status ≠ 200 then Except.error ("Failed to upload video: " ++ toString status)
  else Except.ok ()

/-- Events appended by the `catch` block of `handleUpload`. -/
def uploadCatchEvents : List UploadEvent :=
  [.alertShown "Error" "Failed to upload video. Please try again."]

/-- Events appended by the `finally` block of `handleUpload`:
`setUploading(false); setUploadProgress(0)`. -/
def uploadFinallyEvents : List UploadEvent :=
  [.setUploading false, .setProgress 0]

/-- The trace of events performed by `handleUpload` on state `st` when
the remote calls behave as `o` prescribes.  Mirrors the source line by
line: the validation guard `!selectedVideo || !uploadTitle.trim()`,
then `setUploading(true); setUploadProgress(0)`, then the three phases
each preceded by its progress checkpoint (20, 40, 80), `setProgress
100` and the form reset on success, the `catch` alert on the first
failure, and the `finally` block in every non-rejected run. -/
def handleUploadTrace (st : UploadState) (o : UploadOracle) : List UploadEvent :=
  if st.selectedVideo = none ∨ jsTrim st.uploadTitle = "" then
    [.alertShown "Error" "Please select a video and enter a title."]
  else
    let fileUri := st.selectedVideo.getD ""
    [.setUploading true, .setProgress 0] ++
    (match o.getUploadURL with
     | .error _ => [.setProgress 20, .callGetUploadURL] ++ uploadCatchEvents
     | .ok uploadData =>
       [.setProgress 20, .callGetUploadURL,
        .setProgress 40, .callUploadFile uploadData.url fileUri] ++
       (match uploadVideoFile o.uploadStatus with
        | .error _ => uploadCatchEvents
        | .ok _ =>
          [.setProgress 80, .callCreateMetadata (jsTrim st.uploadTitle) uploadData.filename] ++
          (match o.createMetadata with
           | .error _ => uploadCatchEvents
           | .ok _ =>
             [.setProgress 100, .setTitle "", .setSelectedVideo none,
              .setShowModal false,
              .alertShown "Success" "Video uploaded successfully!",
              .refreshVideos]))) ++
    uploadFinallyEvents

/-- Effect of one event on the screen state (the React `set*` calls). -/
def applyEvent (st : UploadState) (e : UploadEvent) : UploadState :=
  match e with
  | .setUploading b => { st with uploading := b }
  | .setProgress p => { st with uploadProgress := p }
  | .setTitle t => { st with uploadTitle := t }
  | .setSelectedVideo v => { st with selectedVideo := v }
  | .setShowModal b => { st with showUploadModal := b }
  | _ => st

/-- `handleUpload` as state transformer plus trace. -/
def handleUpload (st : UploadState) (o : UploadOracle) : UploadState × List UploadEvent :=
  let t := handleUploadTrace st o
  (t.foldl applyEvent st, t)

/-- The successive values passed to `setUploadProgress` in a trace. -/
def progressValues (t : List UploadEvent) : List Nat :=
  t.filterMap fun e =>
    match e with
    | .setProgress p => some p
    | _ => none

/-- The three pipeline phases, for call-order bookkeeping. -/
inductive UploadPhase where
  | acquire
  | transfer
  | commit
deriving DecidableEq

/-- The remote calls issued in a trace, in order, abstracted to their
phase. -/
def callsOf (t : List UploadEvent) : List UploadPhase :=
  t.filterMap fun e =>
    match e with
    | .callGetUploadURL => some .acquire
    | .callUploadFile _ _ => some .transfer
    | .callCreateMetadata _ _ => some .commit
    | _ => none

/-- Validation precondition of `handleUpload`: a file is selected and
the trimmed title is non-empty. -/
def validInput (st : UploadState) : Prop :=
  st.selectedVideo ≠ none ∧ jsTrim st.uploadTitle ≠ ""

instance (st : UploadState) : Decidable (validInput st) := by
  unfold validInput; infer_instance

/-- A concrete valid initial screen state used in closed statements. -/
def demoState : UploadState :=
  { selectedVideo := some "file:///demo.mp4"
    uploadTitle := "Demo"
    uploading := false
    uploadProgress := 0
    showUploadModal := true }

/-- A concrete all-success oracle used in closed statements. -/
def demoOracle : UploadOracle :=
  { getUploadURL := Except.ok { filename := "vid-1.mp4", url := "https://bucket/vid-1", video_id := "vid-1" }
    uploadStatus := 200
    createMetadata := Except.ok () }

/-- An oracle whose transfer phase reports HTTP status 500. -/
def failOracle : UploadOracle :=
  { getUploadURL := Except.ok { filename := "vid-1.mp4", url := "https://bucket/vid-1", video_id := "vid-1" }
    uploadStatus := 500
    createMetadata := Except.ok () }

/-! ### Theorems about the upload pipeline -/

/-- C1 (counterexample): on the concrete all-success run, the sequence
of progress values a caller observes is `[0, 20, 40, 80, 100, 0]` — the
`finally` block appends a trailing reset to 0, so the sequence is not
exactly `0, 20, 40, 80, 100` and does not end with 100, and the final
screen state has `uploading = false` and progress 0 (idle), not a
retained `done` state. -/
theorem upload_progress_cex :
    progressValues (handleUploadTrace demoState demoOracle) = [0, 20, 40, 80, 100, 0] ∧
    progressValues (handleUploadTrace demoState demoOracle) ≠ [0, 20, 40, 80, 100] ∧
    (progressValues (handleUploadTrace demoState demoOracle)).getLast? ≠ some 100 ∧
    (handleUpload demoState demoOracle).1.uploading = false ∧
    (handleUpload demoState demoOracle).1.uploadProgress = 0 := by
  decide

/-- C1 (amended): for every valid input and every oracle on which all
three remote calls succeed, the progress values observed by the caller
are `[0, 20, 40, 80, 100]` followed by the reset-to-idle `0` from the
`finally` block; the portion up to the success postcondition is
non-decreasing, takes exactly the values 0, 20, 40, 80, 100 in that
order and ends at exactly 100; at that point all three phases have run
in order, and the session is then reset to idle (uploading false,
progress 0, form cleared) after signalling a catalog refresh. -/
theorem upload_success_progress (st : UploadState) (o : UploadOracle)
    (hv : validInput st) (d : UploadResponse) (hg : o.getUploadURL = .ok d)
    (ht : o.uploadStatus = 200) (hc : o.createMetadata = .ok ()) :
    progressValues (handleUploadTrace st o) = [0, 20, 40, 80, 100] ++ [0] ∧
    List.Chain' (· ≤ ·) [0, 20, 40, 80, 100] ∧
    callsOf (handleUploadTrace st o) = [.acquire, .transfer, .commit] ∧
    (handleUploadTrace st o).contains .refreshVideos = true ∧
    (handleUpload st o).1.uploading = false ∧
    (handleUpload st o).1.uploadProgress = 0 ∧
    (handleUpload st o).1.selectedVideo = none ∧
    (handleUpload st o).1.uploadTitle = "" := by
  obtain ⟨h1, h2⟩ := hv
  have htr : handleUploadTrace st o =
      [.setUploading true, .setProgress 0, .setProgress 20, .callGetUploadURL,
       .setProgress 40, .callUploadFile d.url (st.selectedVideo.getD ""),
       .setProgress 80, .callCreateMetadata (jsTrim st.uploadTitle) d.filename,
       .setProgress 100, .setTitle "", .setSelectedVideo none, .setShowModal false,
       .alertShown "Success" "Video uploaded successfully!", .refreshVideos,
       .setUploading false, .setProgress 0] := by
    unfold handleUploadTrace
    rw [if_neg (by simp [h1, h2])]
    simp [hg, ht, hc, uploadVideoFile, uploadFinallyEvents]
  refine ⟨?_, ?_, ?_, ?_, ?_, ?_, ?_, ?_⟩ <;>
    simp [handleUpload, htr, progressValues, callsOf, applyEvent, List.foldl]

/-- C1 (witness): the amended success-path statement instantiated at
the concrete demo state and all-success oracle. -/
theorem upload_success_progress_witness :
    progressValues (handleUploadTrace demoState demoOracle) = [0, 20, 40, 80, 100] ++ [0] ∧
    List.Chain' (· ≤ ·) [0, 20, 40, 80, 100] ∧
    callsOf (handleUploadTrace demoState demoOracle) = [.acquire, .transfer, .commit] ∧
    (handleUploadTrace demoState demoOracle).contains .refreshVideos = true ∧
    (handleUpload demoState demoOracle).1.uploading = false ∧
    (handleUpload demoState demoOracle).1.uploadProgress = 0 ∧
    (handleUpload demoState demoOracle).1.selectedVideo = none ∧
    (handleUpload demoState demoOracle).1.uploadTitle = "" :=
  upload_success_progress demoState demoOracle (by decide)
    { filename := "vid-1.mp4", url := "https://bucket/vid-1", video_id := "vid-1" }
    (by decide) (by decide) (by decide)

/-- C2: for every valid input, the remote calls issued by one
`handleUpload` attempt are exactly a prefix of acquire–transfer–commit
gated on success of the previous phase: acquire alone when acquiring
the target fails, acquire then transfer when the transfer reports a
status other than 200, and all three in order only when acquire
succeeded and the transfer reported 200.  In particular, when the
transfer phase fails, `createVideoMetadata` is never invoked. -/
theorem upload_phase_order (st : UploadState) (o : UploadOracle) (hv : validInput st) :
    (o.uploadStatus ≠ 200 → (callsOf (handleUploadTrace st o)).count .commit = 0) ∧
    callsOf (handleUploadTrace st o) =
      (match o.getUploadURL with
       | .error _ => [.acquire]
       | .ok _ =>
         if o.uploadStatus = 200 then [.acquire, .transfer, .commit]
         else [.acquire, .transfer]) := by
  obtain ⟨h1, h2⟩ := hv
  have hcalls : callsOf (handleUploadTrace st o) =
      (match o.getUploadURL with
       | .error _ => [.acquire]
       | .ok _ =>
         if o.uploadStatus = 200 then [.acquire, .transfer, .commit]
         else [.acquire, .transfer]) := by
    unfold handleUploadTrace
    rw [if_neg (by simp [h1, h2])]
    cases hg : o.getUploadURL with
    | error e =>
      simp [callsOf, uploadCatchEvents, uploadFinallyEvents]
    | ok d =>
      by_cases hs : o.uploadStatus = 200
      · cases hc : o.createMetadata <;>
          simp [callsOf, uploadVideoFile, hs, uploadCatchEvents, uploadFinallyEvents]
      · simp [callsOf, uploadVideoFile, hs, uploadCatchEvents, uploadFinallyEvents]
  refine ⟨fun hs => ?_, hcalls⟩
  rw [hcalls]
  cases o.getUploadURL <;> simp [hs]

/-- C2 (witness): with a selected file, title `"Demo"`, a successful
acquire and a transfer reporting status 500, no commit call is issued
and the calls are exactly acquire then transfer. -/
theorem upload_phase_order_witness :
    (callsOf (handleUploadTrace demoState failOracle)).count .commit = 0 ∧
    callsOf (handleUploadTrace demoState failOracle) = [.acquire, .transfer] :=
  ⟨(upload_phase_order demoState failOracle (by decide)).1 (by decide),
   (upload_phase_order demoState failOracle (by decide)).2⟩

/-- C3: whenever no file is selected or the title trims to empty,
`handleUpload` performs exactly one validation alert and nothing else:
no remote call, no progress update, and the screen state (including
`uploading` and `uploadProgress`) is left unchanged. -/
theorem upload_validation_rejects (st : UploadState) (o : UploadOracle)
    (h : st.selectedVideo = none ∨ jsTrim st.uploadTitle = "") :
    handleUploadTrace st o =
      [.alertShown "Error" "Please select a video and enter a title."] ∧
    callsOf (handleUploadTrace st o) = [] ∧
    progressValues (handleUploadTrace st o) = [] ∧
    (handleUpload st o).1 = st := by
  have htr : handleUploadTrace st o =
      [.alertShown "Error" "Please select a video and enter a title."] := by
    unfold handleUploadTrace
    rw [if_pos h]
  exact ⟨htr, by simp [callsOf, htr], by simp [progressValues, htr],
    by simp [handleUpload, htr, applyEvent]⟩

/-- C3 (witness): a selected file with a whitespace-only title is
rejected with the validation alert, zero remote calls and unchanged
state. -/
theorem upload_validation_rejects_witness :
    handleUploadTrace { demoState with uploadTitle := "   " } demoOracle =
      [.alertShown "Error" "Please select a video and enter a title."] ∧
    callsOf (handleUploadTrace { demoState with uploadTitle := "   " } demoOracle) = [] ∧
    progressValues (handleUploadTrace { demoState with uploadTitle := "   " } demoOracle) = [] ∧
    (handleUpload { demoState with uploadTitle := "   " } demoOracle).1 =
      { demoState with uploadTitle := "   " } :=
  upload_validation_rejects { demoState with uploadTitle := "   " } demoOracle (by decide)

/-! ### Playback controller (src/app/video-player.tsx) -/

/-- The slice of the engine's status object read by the controller:
`isLoaded`, `positionMillis` and `durationMillis`.  The numeric fields
are naturals; 0 doubles for JavaScript's falsy absent/undefined value,
matching the `!status.durationMillis`-style truthiness guards. -/
structure PlayerStatus where
  isLoaded : Bool
  positionMillis : Nat
  durationMillis : Nat
deriving DecidableEq

/-- `seekTo(position)`: when the status is loaded with a known
duration, command the engine to jump to `position * durationMillis`
(the command's absolute millisecond target); otherwise do nothing. -/
def seekTo (position : ℚ) (status : PlayerStatus) : Option ℚ :=
  if status.isLoaded = true ∧ status.durationMillis ≠ 0 then
    some (position * (status.durationMillis : ℚ))
  else none

/-- `handleSeek(event)`: guard `!progressBarWidth || !status.isLoaded
|| !status.durationMillis` makes the gesture a no-op; otherwise the
touch offset is divided by the track width, clamped to `[0, 1]` with
`Math.min(Math.max(·, 0), 1)`, and passed to `seekTo`. -/
def handleSeek (touchX : ℚ) (progressBarWidth : ℚ) (status : PlayerStatus) : Option ℚ :=
  if progressBarWidth = 0 ∨ status.isLoaded = false ∨ status.durationMillis = 0 then
    none
  else
    seekTo (min (max (touchX / progressBarWidth) 0) 1) status

/-- The fixed ordered rate set of `changePlaybackRate`:
`[0.5, 0.75, 1.0, 1.25, 1.5, 2.0]`. -/
def rates : List ℚ := [1/2, 3/4, 1, 5/4, 3/2, 2]

/-- The rate selected by `changePlaybackRate` from the current one:
`rates[(rates.indexOf(playbackRate) + 1) % rates.length]`, where
JavaScript's `indexOf` yields `-1` when the rate is not in the list. -/
def nextRate (playbackRate : ℚ) : ℚ :=
  let currentIndex : Int :=
    match rates.findIdx? (fun x => decide (x = playbackRate)) with
    | some i => (i : Int)
    | none => -1
  rates.getD ((currentIndex + 1) % (rates.length : Int)).toNat 0

/-- `changePlaybackRate`: returns the new locally mirrored rate
(always set) and the engine command (issued only when loaded). -/
def changePlaybackRate (playbackRate : ℚ) (isLoaded : Bool) : ℚ × Option ℚ :=
  let n := nextRate playbackRate
  (n, if isLoaded then some n else none)

/-- JavaScript's `String.prototype.padStart(targetLength, c)`:
left-pad with `c` up to `targetLength` (no-op when already long
enough). -/
def padStart (s : String) (targetLength : Nat) (c : Char) : String :=
  if targetLength ≤ s.length then s
  else String.mk (List.replicate (targetLength - s.length) c) ++ s

/-- `formatTime(millis)`: total minutes, `":"`, and the remaining
seconds zero-padded to two digits. -/
def formatTime (millis : Nat) : String :=
  let totalSeconds := millis / 1000
  let minutes := totalSeconds / 60
  let seconds := totalSeconds % 60
  toString minutes ++ ":" ++ padStart (toString seconds) 2 '0'

/-- The progress-update effect: when both `durationMillis` and
`positionMillis` are truthy (nonzero), the rendered progress value is
recomputed as `positionMillis / durationMillis`; otherwise the previous
value is retained. -/
def updateProgress (status : PlayerStatus) (prev : ℚ) : ℚ :=
  if status.durationMillis ≠ 0 ∧ status.positionMillis ≠ 0 then
    (status.positionMillis : ℚ) / (status.durationMillis : ℚ)
  else prev

/-! ### Theorems about seek, rate cycling and time formatting -/

/-- C4: a tap on the seek track is a no-op when the track width is 0 or
the duration is unknown (not loaded, or duration 0); otherwise the seek
fraction is `clamp(x / w, 0, 1)` with closed bounds — it always lies in
`[0, 1]`, `x = 0` yields fraction 0 and `x = w` yields fraction 1, both
accepted — and the engine is asked to jump to `fraction *
durationMillis`. -/
theorem seek_clamp (touchX w : ℚ) (st : PlayerStatus)
    (hw : w ≠ 0) (hl : st.isLoaded = true) (hd : st.durationMillis ≠ 0) :
    (∀ x' w' st', w' = 0 ∨ st'.isLoaded = false ∨ st'.durationMillis = 0 →
      handleSeek x' w' st' = none) ∧
    handleSeek touchX w st =
      some (min (max (touchX / w) 0) 1 * (st.durationMillis : ℚ)) ∧
    0 ≤ min (max (touchX / w) 0) 1 ∧
    min (max (touchX / w) 0) 1 ≤ 1 ∧
    handleSeek 0 w st = some 0 ∧
    handleSeek w w st = some (st.durationMillis : ℚ) := by
  have hnoop : ∀ x' w' (st' : PlayerStatus),
      w' = 0 ∨ st'.isLoaded = false ∨ st'.durationMillis = 0 →
      handleSeek x' w' st' = none := by
    intro x' w' st' h
    simp [handleSeek, h]
  have hmain : handleSeek touchX w st =
      some (min (max (touchX / w) 0) 1 * (st.durationMillis : ℚ)) := by
    simp [handleSeek, seekTo, hw, hl, hd]
  refine ⟨hnoop, hmain, le_min (le_max_right _ _) zero_le_one, min_le_right _ _, ?_, ?_⟩
  · simp [handleSeek, seekTo, hw, hl, hd]
  · have : w / w = 1 := div_self hw
    simp [handleSeek, seekTo, hw, hl, hd, this]

/-- C4 (witness): on a 200px track with a loaded 150000ms video, a tap
at x = 0 seeks to 0 and a tap at x = 200 seeks to the full duration. -/
theorem seek_clamp_witness :
    handleSeek 0 200 { isLoaded := true, positionMillis := 0, durationMillis := 150000 } =
      some 0 ∧
    handleSeek 200 200 { isLoaded := true, positionMillis := 0, durationMillis := 150000 } =
      some 150000 :=
  ⟨(seek_clamp 0 200 { isLoaded := true, positionMillis := 0, durationMillis := 150000 }
      (by norm_num) rfl (by norm_num)).2.2.2.2.1,
   (seek_clamp 200 200 { isLoaded := true, positionMillis := 0, durationMillis := 150000 }
      (by norm_num) rfl (by norm_num)).2.2.2.2.2⟩

/-- Evaluation of `nextRate` at 0.5. -/
theorem nextRate_half : nextRate (1/2) = 3/4 := by
  norm_num [nextRate, rates, List.findIdx?]

/-- Evaluation of `nextRate` at 0.75. -/
theorem nextRate_threeQuarters : nextRate (3/4) = 1 := by
  norm_num [nextRate, rates, List.findIdx?]
  rfl

/-- Evaluation of `nextRate` at 1.0. -/
theorem nextRate_one : nextRate 1 = 5/4 := by
  norm_num [nextRate, rates, List.findIdx?]
  rfl

/-- Evaluation of `nextRate` at 1.25. -/
theorem nextRate_fiveQuarters : nextRate (5/4) = 3/2 := by
  norm_num [nextRate, rates, List.findIdx?]
  rfl

/-- Evaluation of `nextRate` at 1.5. -/
theorem nextRate_threeHalves : nextRate (3/2) = 2 := by
  norm_num [nextRate, rates, List.findIdx?]
  rfl

/-- Evaluation of `nextRate` at 2.0: wraps back to 0.5. -/
theorem nextRate_two : nextRate 2 = 1/2 := by
  norm_num [nextRate, rates, List.findIdx?]

/-- C5: rate cycling is a cyclic permutation of the fixed ordered set
`{0.5, 0.75, 1.0, 1.25, 1.5, 2.0}`: mapping the successor over the
list rotates it by one (so 2.0 wraps to 0.5 and 1.0 advances to 1.25),
applying it six times is the identity on every member, and the new
rate is mirrored locally whether or not the engine is loaded. -/
theorem rate_cycling (r : ℚ) (hr : r ∈ rates) :
    nextRate 1 = 5/4 ∧
    nextRate 2 = 1/2 ∧
    rates.map nextRate = [3/4, 1, 5/4, 3/2, 2, 1/2] ∧
    nextRate^[6] r = r ∧
    (∀ q b, (changePlaybackRate q b).1 = nextRate q) := by
  have hmap : rates.map nextRate = [3/4, 1, 5/4, 3/2, 2, 1/2] := by
    simp only [rates, List.map_cons, List.map_nil]
    rw [nextRate_half, nextRate_threeQuarters, nextRate_one,
      nextRate_fiveQuarters, nextRate_threeHalves, nextRate_two]
  refine ⟨nextRate_one, nextRate_two, hmap, ?_, fun q b => rfl⟩
  simp only [rates, List.mem_cons, List.not_mem_nil, or_false] at hr
  rcases hr with h | h | h | h | h | h <;> subst h
  · show nextRate (nextRate (nextRate (nextRate (nextRate (nextRate (1/2)))))) = 1/2
    rw [nextRate_half, nextRate_threeQuarters, nextRate_one, nextRate_fiveQuarters,
      nextRate_threeHalves, nextRate_two]
  · show nextRate (nextRate (nextRate (nextRate (nextRate (nextRate (3/4)))))) = 3/4
    rw [nextRate_threeQuarters, nextRate_one, nextRate_fiveQuarters,
      nextRate_threeHalves, nextRate_two, nextRate_half]
  · show nextRate (nextRate (nextRate (nextRate (nextRate (nextRate 1))))) = 1
    rw [nextRate_one, nextRate_fiveQuarters, nextRate_threeHalves, nextRate_two,
      nextRate_half, nextRate_threeQuarters]
  · show nextRate (nextRate (nextRate (nextRate (nextRate (nextRate (5/4)))))) = 5/4
    rw [nextRate_fiveQuarters, nextRate_threeHalves, nextRate_two, nextRate_half,
      nextRate_threeQuarters, nextRate_one]
  · show nextRate (nextRate (nextRate (nextRate (nextRate (nextRate (3/2)))))) = 3/2
    rw [nextRate_threeHalves, nextRate_two, nextRate_half, nextRate_threeQuarters,
      nextRate_one, nextRate_fiveQuarters]
  · show nextRate (nextRate (nextRate (nextRate (nextRate (nextRate 2))))) = 2
    rw [nextRate_two, nextRate_half, nextRate_threeQuarters, nextRate_one,
      nextRate_fiveQuarters, nextRate_threeHalves]

/-- C5 (witness): the cycling facts instantiated at the member rate
1.0. -/
theorem rate_cycling_witness :
    nextRate 1 = 5/4 ∧
    nextRate 2 = 1/2 ∧
    rates.map nextRate = [3/4, 1, 5/4, 3/2, 2, 1/2] ∧
    nextRate^[6] (1 : ℚ) = 1 ∧
    (∀ q b, (changePlaybackRate q b).1 = nextRate q) :=
  rate_cycling 1 (by norm_num [rates])

/-- Zero-padding `toString` of a second count below 60 agrees with the
two-digit description. -/
theorem padStart_seconds (s : Nat) (hs : s < 60) :
    padStart (toString s) 2 '0' =
      (if s < 10 then "0" ++ toString s else toString s) := by
  revert hs
  revert s
  decide

/-! ### Controls auto-hide timer

The effect at `src/app/video-player.tsx:87-96` re-runs whenever
`showControls` or `isLoading` changes.  React first runs the previous
run's cleanup (`clearTimeout`), then the body, which arms a fresh
3000ms single-shot timeout when `showControls && !isLoading`.  The
model gives each `setTimeout` call a fresh identifier drawn from a
counter; the platform delivering a timeout callback is `fireTimer`,
which runs the hide callback only if that identifier is still the
armed one (a cleared timeout's callback is never delivered). -/

/-- State of the controls-hide timer machinery: the fresh-identifier
counter, the currently armed timeout (identifier and delay), the two
effect dependencies, and a count of hide events that have run. -/
structure TimerState where
  nextId : Nat
  armed : Option (Nat × Nat)
  showControls : Bool
  isLoading : Bool
  hideEvents : Nat
deriving DecidableEq

/-- One run of the hide-controls effect: the previous cleanup clears
any pending timeout, then a fresh 3000ms timeout is armed when the
controls are visible and the player is not loading. -/
def runHideEffect (s : TimerState) : TimerState :=
  let s1 : TimerState := { s with armed := none }
  if s1.showControls = true ∧ s1.isLoading = false then
    { s1 with armed := some (s1.nextId, 3000), nextId := s1.nextId + 1 }
  else s1

/-- The platform delivers the callback of timeout `id`: the callback
body (`setShowControls(false)` plus the fade animation, counted as one
hide event) runs only when `id` is still the armed timeout; a cleared
or superseded timeout is never delivered. -/
def fireTimer (id : Nat) (s : TimerState) : TimerState :=
  match s.armed with
  | some (a, _) =>
    if a = id then
      { s with armed := none, showControls := false, hideEvents := s.hideEvents + 1 }
    else s
  | none => s

/-- Well-formedness: any armed timeout identifier was drawn from the
counter, hence is below it. -/
def timerWf (s : TimerState) : Prop :=
  ∀ i d, s.armed = some (i, d) → i < s.nextId

/-- C6: the hide-timer discipline.  Whenever controls are visible and
the player is not loading, a run of the effect arms a single-shot
3000ms deadline; every run first cancels the pending deadline, so a
previously armed timeout can no longer fire after any re-run; and
arming twice in quick succession yields exactly one hide event — the
first (stale) timeout is a no-op in either firing order, and the pair
of deliveries increments the hide count by exactly one. -/
theorem controls_hide_timer (s : TimerState) (hwf : timerWf s)
    (hc : s.showControls = true) (hl : s.isLoading = false) :
    (runHideEffect s).armed = some (s.nextId, 3000) ∧
    (∀ i d, s.armed = some (i, d) → fireTimer i (runHideEffect s) = runHideEffect s) ∧
    (∀ id' s', s'.armed = none ∨ (∃ a d, s'.armed = some (a, d) ∧ a ≠ id') →
      fireTimer id' s' = s') ∧
    (fireTimer s.nextId (runHideEffect (runHideEffect s)) =
      runHideEffect (runHideEffect s)) ∧
    ((fireTimer (s.nextId + 1) (runHideEffect (runHideEffect s))).hideEvents =
      s.hideEvents + 1) ∧
    (fireTimer s.nextId
        (fireTimer (s.nextId + 1) (runHideEffect (runHideEffect s))) =
      fireTimer (s.nextId + 1) (runHideEffect (runHideEffect s))) := by
  have harm : runHideEffect s = { s with armed := some (s.nextId, 3000), nextId := s.nextId + 1 } := by
    simp [runHideEffect, hc, hl]
  have harm2 : runHideEffect (runHideEffect s) =
      { s with armed := some (s.nextId + 1, 3000), nextId := s.nextId + 2 } := by
    rw [harm]
    simp [runHideEffect, hc, hl]
  have hstale : ∀ id' s', s'.armed = none ∨ (∃ a d, s'.armed = some (a, d) ∧ a ≠ id') →
      fireTimer id' s' = s' := by
    intro id' s' h
    rcases h with h | ⟨a, d, ha, hne⟩
    · simp [fireTimer, h]
    · simp [fireTimer, ha, hne]
  refine ⟨by rw [harm], ?_, hstale, ?_, ?_, ?_⟩
  · intro i d hi
    have hlt := hwf i d hi
    apply hstale
    right
    exact ⟨s.nextId, 3000, by rw [harm], by omega⟩
  · apply hstale
    right
    exact ⟨s.nextId + 1, 3000, by rw [harm2], by omega⟩
  · rw [harm2]
    simp [fireTimer]
  · rw [harm2]
    simp [fireTimer]

/-- C6 (witness): the timer discipline at the initial player state
(counter 0, nothing armed, controls visible, not loading). -/
theorem controls_hide_timer_witness :
    (runHideEffect { nextId := 0, armed := none, showControls := true, isLoading := false, hideEvents := 0 }).armed = some (0, 3000) ∧
    (fireTimer 0 (runHideEffect (runHideEffect { nextId := 0, armed := none, showControls := true, isLoading := false, hideEvents := 0 })) =
      runHideEffect (runHideEffect { nextId := 0, armed := none, showControls := true, isLoading := false, hideEvents := 0 })) ∧
    ((fireTimer 1 (runHideEffect (runHideEffect { nextId := 0, armed := none, showControls := true, isLoading := false, hideEvents := 0 }))).hideEvents = 1) :=
  have h := controls_hide_timer
    { nextId := 0, armed := none, showControls := true, isLoading := false, hideEvents := 0 }
    (by intro i d h; simp at h) rfl rfl
  ⟨h.1, h.2.2.2.1, h.2.2.2.2.1⟩

/-- C7: for every non-negative millisecond count, `formatTime` renders
total minutes, a colon, and the remaining seconds zero-padded to two
digits — there is no hour component, and in particular 75000ms renders
as `1:15` and 150000ms as `2:30`. -/
theorem formatTime_spec (ms : Nat) :
    (∃ m s, ms / 1000 = 60 * m + s ∧ s < 60 ∧
      formatTime ms =
        toString m ++ ":" ++ (if s < 10 then "0" ++ toString s else toString s)) ∧
    formatTime 75000 = "1:15" ∧
    formatTime 150000 = "2:30" := by
  refine ⟨⟨ms / 1000 / 60, ms / 1000 % 60, ?_, Nat.mod_lt _ (by norm_num), ?_⟩,
    by decide, by decide⟩
  · rw [Nat.div_add_mod]
  · rw [formatTime, padStart_seconds _ (Nat.mod_lt _ (by norm_num))]

/-! ### Progress derivation (C8) -/

/-- C8 (counterexample): a status update reporting position 0 with a
known 150000ms duration does not recompute the ratio — the truthiness
guard `status.durationMillis && status.positionMillis` fails at
position 0, so a stale previous value (here 1) is retained even though
`positionMillis / durationMillis = 0`. -/
theorem progress_not_recomputed_cex :
    updateProgress { isLoaded := true, positionMillis := 0, durationMillis := 150000 } 1 = 1 ∧
    (0 : ℚ) / 150000 = 0 ∧
    (1 : ℚ) ≠ 0 := by
  refine ⟨by simp [updateProgress], by norm_num, by norm_num⟩

/-- C8 (amended): a status update recomputes the rendered progress as
`positionMillis / durationMillis` exactly when both fields are nonzero;
when the duration is unknown (0) or the position is 0 the previous
value is retained unchanged; whenever recomputed with `position ≤
duration` the ratio lies in `[0, 1]`; and position 75000ms with
duration 150000ms yields exactly 1/2. -/
theorem progress_derivation (st : PlayerStatus) (prev : ℚ) :
    (st.durationMillis ≠ 0 → st.positionMillis ≠ 0 →
      updateProgress st prev = (st.positionMillis : ℚ) / (st.durationMillis : ℚ)) ∧
    (st.durationMillis = 0 ∨ st.positionMillis = 0 → updateProgress st prev = prev) ∧
    (st.durationMillis ≠ 0 → st.positionMillis ≤ st.durationMillis →
      0 ≤ (st.positionMillis : ℚ) / (st.durationMillis : ℚ) ∧
      (st.positionMillis : ℚ) / (st.durationMillis : ℚ) ≤ 1) ∧
    updateProgress { isLoaded := true, positionMillis := 75000, durationMillis := 150000 } prev = 1/2 := by
  refine ⟨fun hd hp => by simp [updateProgress, hd, hp], ?_, fun hd hle => ?_, ?_⟩
  · intro h
    rcases h with h | h <;> simp [updateProgress, h]
  · have hpos : (0 : ℚ) < (st.durationMillis : ℚ) := by
      exact_mod_cast Nat.pos_of_ne_zero hd
    exact ⟨div_nonneg (Nat.cast_nonneg _) (Nat.cast_nonneg _),
      (div_le_one hpos).mpr (by exact_mod_cast hle)⟩
  · simp [updateProgress]
    norm_num

/-- C8 (witness): the amended derivation rule evaluated at position
75000ms / duration 150000ms (recomputed to 1/2) and at position 0
(previous value 1/3 retained). -/
theorem progress_derivation_witness :
    updateProgress { isLoaded := true, positionMillis := 75000, durationMillis := 150000 } (1/3) =
      (75000 : ℚ) / (150000 : ℚ) ∧
    updateProgress { isLoaded := true, positionMillis := 0, durationMillis := 150000 } (1/3) = 1/3 ∧
    (0 ≤ (75000 : ℚ) / (150000 : ℚ) ∧ (75000 : ℚ) / (150000 : ℚ) ≤ 1) ∧
    updateProgress { isLoaded := true, positionMillis := 75000, durationMillis := 150000 } (1/3) = 1/2 :=
  have h1 := progress_derivation { isLoaded := true, positionMillis := 75000, durationMillis := 150000 } (1/3)
  have h2 := progress_derivation { isLoaded := true, positionMillis := 0, durationMillis := 150000 } (1/3)
  ⟨h1.1 (by norm_num) (by norm_num), h2.2.1 (Or.inr rfl),
   h1.2.2.1 (by norm_num) (by norm_num), h1.2.2.2⟩

/-! ### Catalog listing and deletion (src/app/(tabs)/index.tsx) -/

/-- A catalog entry as far as the screen state is concerned. -/
structure VideoRec where
  id : String
  title : String
  filename : String
deriving DecidableEq

/-- Body of the `GET /videos/ready` response: `{videos: [...]}`. -/
structure CatalogResponse where
  videos : List VideoRec
deriving DecidableEq

/-- The screen state touched by `loadVideos`: the in-memory videos
snapshot and the two spinner flags. -/
structure CatalogState where
  videos : List VideoRec
  loading : Bool
  refreshing : Bool
deriving DecidableEq

/-- `loadVideos(showRefreshIndicator)`: raise the matching spinner
flag, replace the snapshot only when `getReadyVideos` succeeds, alert
on failure, and clear both flags in the `finally` block.  Returns the
new state and the alerts shown. -/
def loadVideos (showRefreshIndicator : Bool) (result : Except String CatalogResponse)
    (st : CatalogState) : CatalogState × List (String × String) :=
  let st1 := if showRefreshIndicator then { st with refreshing := true }
             else { st with loading := true }
  let step :=
    match result with
    | .ok fetched => ({ st1 with videos := fetched.videos }, ([] : List (String × String)))
    | .error _ => (st1, [("Error", "Failed to load videos. Please try again.")])
  ({ step.1 with loading := false, refreshing := false }, step.2)

/-- The `onPress` continuation of the destructive confirm button in
`handleDeleteVideo`: call `deleteVideo`; on success alert and refresh
via `loadVideos`; on failure alert and leave the screen untouched. -/
def onDeleteConfirmed (deleteResult : Except String Unit)
    (refreshResult : Except String CatalogResponse) (st : CatalogState) :
    CatalogState × List (String × String) :=
  match deleteResult with
  | .ok _ =>
    let step := loadVideos false refreshResult st
    (step.1, [("Success", "Video deleted successfully!")] ++ step.2)
  | .error _ => (st, [("Error", "Failed to delete video.")])

/-- C9: failed deletions and failed catalog refreshes are reported via
an alert and leave the in-memory videos snapshot exactly as it was —
this holds for a failing refresh, a failing delete (which skips the
refresh entirely), and a successful delete whose follow-up refresh
fails; only a successful refresh replaces the snapshot, with the
fetched list. -/
theorem catalog_failures_preserve_snapshot (st : CatalogState) (b : Bool)
    (e : String) (resp : CatalogResponse) (r : Except String CatalogResponse) :
    ((loadVideos b (Except.error e) st).1.videos = st.videos ∧
     (loadVideos b (Except.error e) st).2 =
       [("Error", "Failed to load videos. Please try again.")]) ∧
    ((onDeleteConfirmed (Except.error e) r st).1.videos = st.videos ∧
     (onDeleteConfirmed (Except.error e) r st).2 =
       [("Error", "Failed to delete video.")]) ∧
    ((onDeleteConfirmed (Except.ok ()) (Except.error e) st).1.videos = st.videos ∧
     (onDeleteConfirmed (Except.ok ()) (Except.error e) st).2 =
       [("Success", "Video deleted successfully!"),
        ("Error", "Failed to load videos. Please try again.")]) ∧
    (loadVideos b (Except.ok resp) st).1.videos = resp.videos := by
  cases b <;> simp [loadVideos, onDeleteConfirmed]

/-! ### Playback-URL resolution (videoAPI.getPlaybackURL) -/

/-- The response consumed by `getPlaybackURL`: HTTP success flag,
status text, and the two possible JSON fields for the resolved URL
(`none` models an absent field). -/
structure PlayResponse where
  ok : Bool
  statusText : String
  url : Option String
  playback_url : Option String
deriving DecidableEq

/-- JavaScript truthiness of an optional string: an absent field and
the empty string are falsy. -/
def jsTruthyStr (o : Option String) : Bool :=
  match o with
  | some s => !s.isEmpty
  | none => false

/-- `videoAPI.getPlaybackURL`: throw with the status text on a
non-success response, else return `data.url || data.playback_url`. -/
def getPlaybackURL (r : PlayResponse) : Except String (Option String) :=
  if r.ok = false then
    Except.error ("Failed to get playback URL: " ++ r.statusText)
  else
    Except.ok (if jsTruthyStr r.url then r.url else r.playback_url)

/-- C10: playback-URL resolution accepts both field names — on a
successful response it yields the `url` field whenever that field is
present and truthy, and otherwise falls back to the `playback_url`
field; on a non-success HTTP status it fails with an error carrying the
status text. -/
theorem playback_url_fallback (r : PlayResponse) :
    (r.ok = false →
      getPlaybackURL r = Except.error ("Failed to get playback URL: " ++ r.statusText)) ∧
    (r.ok = true → jsTruthyStr r.url = true → getPlaybackURL r = Except.ok r.url) ∧
    (r.ok = true → jsTruthyStr r.url = false → getPlaybackURL r = Except.ok r.playback_url) := by
  refine ⟨fun h => by simp [getPlaybackURL, h],
    fun h ht => by simp [getPlaybackURL, h, ht],
    fun h ht => by simp [getPlaybackURL, h, ht]⟩

/-- A successful response carrying only the `playback_url` field. -/
def respOnlyFallback : PlayResponse :=
  { ok := true, statusText := "OK", url := none, playback_url := some "https://cdn/v.m3u8" }

/-- A successful response carrying a truthy `url` field. -/
def respWithUrl : PlayResponse :=
  { ok := true, statusText := "OK", url := some "https://cdn/d.m3u8", playback_url := none }

/-- A failed response with status text `Not Found`. -/
def respNotFound : PlayResponse :=
  { ok := false, statusText := "Not Found", url := none, playback_url := none }

/-- C10 (witness): fallback to `playback_url` when `url` is absent,
use of `url` when present, and the error on a 404 status text. -/
theorem playback_url_fallback_witness :
    getPlaybackURL respOnlyFallback = Except.ok (some "https://cdn/v.m3u8") ∧
    getPlaybackURL respWithUrl = Except.ok (some "https://cdn/d.m3u8") ∧
    getPlaybackURL respNotFound = Except.error "Failed to get playback URL: Not Found" :=
  ⟨(playback_url_fallback respOnlyFallback).2.2 rfl rfl,
   (playback_url_fallback respWithUrl).2.1 rfl rfl,
   (playback_url_fallback respNotFound).1 rfl⟩

end IndiStream
